import Mathlib

/-!
A shallow embedding of the `autotest` repository: the two pipeline variants
(`runTest` in `src/test-generatior.ts` and `runTest` in `src/tester.ts`) and
the helper functions `sanitizeHTML` and `filterHTML` from
`playwrite_test_auto-1.md`.

External collaborators (the browser, the Anthropic `messages.create` endpoint,
the filesystem) are modelled as an explicit environment of oracles; the
pipeline itself becomes a deterministic function from that environment to a
trace of performed effects together with the outcome of the returned promise.
-/

/-! ## JavaScript string primitives used by the scripts -/

/-- Whitespace accepted between JSON tokens by `JSON.parse`
(space, tab, line feed, carriage return). -/
def jsonWs (c : Char) : Bool :=
  c == ' ' || c == '\t' || c == '\n' || c == '\r'

/-- Drop leading JSON whitespace. -/
def skipWs : List Char → List Char
  | [] => []
  | c :: r => if jsonWs c then skipWs r else c :: r

/-- Hexadecimal digit, as accepted in a JSON `\uXXXX` escape. -/
def isHexDigit (c : Char) : Bool :=
  c.isDigit || ('a' ≤ c && c ≤ 'f') || ('A' ≤ c && c ≤ 'F')

/-- Validate the body of a JSON string after the opening quote; returns the
input remaining after the closing quote.  Mirrors the `JSONString` grammar
used by `JSON.parse`: unescaped characters are any character of code point
at least 0x20 other than `"` and `\`, and the escapes are
`\" \\ \/ \b \f \n \r \t` and `\uXXXX`. -/
def pstr : List Char → Option (List Char)
  | [] => none
  | '"' :: r => some r
  | '\\' :: e :: r =>
    if e == '"' || e == '\\' || e == '/' || e == 'b' || e == 'f' ||
        e == 'n' || e == 'r' || e == 't' then
      pstr r
    else if e == 'u' then
      match r with
      | a :: b :: c :: d :: r' =>
        if isHexDigit a && isHexDigit b && isHexDigit c && isHexDigit d then
          pstr r'
        else none
      | _ => none
    else none
  | c :: r => if 32 ≤ c.toNat then pstr r else none

/-- Drop a run of decimal digits. -/
def dropDigits : List Char → List Char
  | [] => []
  | c :: r => if c.isDigit then dropDigits r else c :: r

/-- Consume one or more decimal digits. -/
def digits1 : List Char → Option (List Char)
  | [] => none
  | c :: r => if c.isDigit then some (dropDigits r) else none

/-- Consume the integer part of a JSON number (after an optional minus sign):
`0` or a nonzero digit followed by digits. -/
def pint : List Char → Option (List Char)
  | [] => none
  | '0' :: r => some r
  | c :: r => if c.isDigit then some (dropDigits r) else none

/-- Consume an optional JSON fraction part (`.` followed by digits). -/
def pfrac : List Char → Option (List Char)
  | '.' :: r => digits1 r
  | l => some l

/-- Consume an optional JSON exponent part (`e`/`E`, optional sign, digits). -/
def pexp : List Char → Option (List Char)
  | [] => some []
  | c :: r =>
    if c == 'e' || c == 'E' then
      match r with
      | s :: r' => if s == '+' || s == '-' then digits1 r' else digits1 r
      | [] => none
    else some (c :: r)

/-- Consume a JSON number. -/
def pnum (l : List Char) : Option (List Char) := do
  let l1 ← match l with
    | '-' :: r => pint r
    | _ => pint l
  let l2 ← pfrac l1
  pexp l2

mutual

/-- Consume one JSON value (fuelled; fuel decreases on every recursive call,
the character position advances whenever fuel is spent on a nested value). -/
def pval : Nat → List Char → Option (List Char)
  | 0, _ => none
  | fuel + 1, l =>
    match l with
    | '\x7b' :: r =>
      match skipWs r with
      | '\x7d' :: r' => some r'
      | r' => pmembers fuel r'
    | '[' :: r =>
      match skipWs r with
      | ']' :: r' => some r'
      | r' => pelems fuel r'
    | '"' :: r => pstr r
    | 't' :: 'r' :: 'u' :: 'e' :: r => some r
    | 'f' :: 'a' :: 'l' :: 's' :: 'e' :: r => some r
    | 'n' :: 'u' :: 'l' :: 'l' :: r => some r
    | c :: _ => if c == '-' || c.isDigit then pnum l else none
    | [] => none

/-- Consume `ws value ws` (a JSON `element`). -/
def pelement : Nat → List Char → Option (List Char)
  | 0, _ => none
  | fuel + 1, l => (pval fuel (skipWs l)).map skipWs

/-- Consume the members of a JSON object after the opening brace
(the brace-skipping empty case is handled by `pval`), including the
closing brace. -/
def pmembers : Nat → List Char → Option (List Char)
  | 0, _ => none
  | fuel + 1, l =>
    match skipWs l with
    | '"' :: r =>
      match pstr r with
      | none => none
      | some r1 =>
        match skipWs r1 with
        | ':' :: r2 =>
          match pelement fuel r2 with
          | none => none
          | some r3 =>
            match r3 with
            | ',' :: r4 => pmembers fuel r4
            | '\x7d' :: r4 => some r4
            | _ => none
        | _ => none
    | _ => none

/-- Consume the elements of a JSON array after the opening bracket
(the empty case is handled by `pval`), including the closing bracket. -/
def pelems : Nat → List Char → Option (List Char)
  | 0, _ => none
  | fuel + 1, l =>
    match pelement fuel l with
    | none => none
    | some r =>
      match r with
      | ',' :: r' => pelems fuel r'
      | ']' :: r' => some r'
      | _ => none

end

/-- Whether `JSON.parse` accepts the string (the whole input must be one
JSON element).  The fuel `2 * length + 4` dominates the recursion depth:
every unit of fuel spent either consumes input or moves one level down a
strictly input-consuming nesting. -/
def jsonValid (s : String) : Bool :=
  pelement (2 * s.length + 4) s.data == some []

/-- Lower-case hexadecimal digit for `n < 16`, as produced by
`JSON.stringify` in `\u00XX` escapes. -/
def hexChar (n : Nat) : Char :=
  if n < 10 then Char.ofNat ('0'.toNat + n) else Char.ofNat ('a'.toNat + (n - 10))

/-- How `JSON.stringify` renders one character inside a string value. -/
def quoteJsonChar (c : Char) : String :=
  if c == '"' then "\\\""
  else if c == '\\' then "\\\\"
  else if c == '\x08' then "\\b"
  else if c == '\x0c' then "\\f"
  else if c == '\n' then "\\n"
  else if c == '\r' then "\\r"
  else if c == '\t' then "\\t"
  else if c.toNat < 32 then "\\u00" ++ String.mk [hexChar (c.toNat / 16), hexChar (c.toNat % 16)]
  else String.mk [c]

/-- `JSON.stringify` applied to a string value: a quoted, escaped copy.
(Lone surrogates cannot occur in Lean strings, so the surrogate-escaping
branch of the JS algorithm has no counterpart.) -/
def jsQuote (s : String) : String :=
  "\"" ++ String.join (s.data.map quoteJsonChar) ++ "\""

/-- Whitespace removed by JavaScript `String.prototype.trim` (ASCII
whitespace, NBSP, BOM and the Unicode line separators; other `Zs`
code points are omitted as they cannot reach the pipeline's inputs). -/
def isJsWs (c : Char) : Bool :=
  c == ' ' || c == '\t' || c == '\n' || c == '\r' || c == '\x0b' ||
    c == '\x0c' || c == '\u00A0' || c == '\uFEFF' || c == '\u2028' || c == '\u2029'

/-- JavaScript `String.prototype.trim`. -/
def jsTrim (s : String) : String :=
  String.mk (((s.data.dropWhile isJsWs).reverse.dropWhile isJsWs).reverse)

/-! ## DOM model

The `page.evaluate` callbacks in both variants operate on `document.body`.
We model the body's child forest; an element node carries its tag name,
its attribute list and its children.  `document.body.innerHTML` is modelled
by a structural serializer. -/

inductive Node where
  | elem (tag : String) (attrs : List (String × String)) (children : List Node)
  | text (s : String)

mutual

/-- `element.removeAttribute('style')` applied to an element and,
recursively, to all elements below it — the embedding of the
`document.querySelectorAll('*')` / `removeAttribute` loop. -/
def stripStyleN : Node → Node
  | .elem t a c => .elem t (a.filter (fun p => p.1 ≠ "style")) (stripStyleL c)
  | .text s => .text s

/-- The style-attribute removal on a forest of nodes. -/
def stripStyleL : List Node → List Node
  | [] => []
  | n :: ns => stripStyleN n :: stripStyleL ns

end

mutual

/-- `document.body.querySelectorAll(sel).forEach(el => el.remove())`, for a
selector that is a comma list of tag names: every descendant element whose
tag is in `sel` is removed together with its subtree.  `removeSelN` cleans
the children of a node that is itself kept. -/
def removeSelN (sel : List String) : Node → Node
  | .elem t a c => .elem t a (removeSelL sel c)
  | .text s => .text s

/-- The selector-removal on a forest of nodes. -/
def removeSelL (sel : List String) : List Node → List Node
  | [] => []
  | .elem t a c :: ns =>
    if t ∈ sel then removeSelL sel ns
    else .elem t a (removeSelL sel c) :: removeSelL sel ns
  | .text s :: ns => .text s :: removeSelL sel ns

end

/-- Serialization of an attribute list, ` name="value"` for each attribute. -/
def serializeAttrs (a : List (String × String)) : String :=
  String.join (a.map (fun p => " " ++ p.1 ++ "=\"" ++ p.2 ++ "\""))

mutual

/-- Structural serialization of one node (the model of the markup a node
contributes to `innerHTML`). -/
def serializeN : Node → String
  | .text s => s
  | .elem t a c => "<" ++ t ++ serializeAttrs a ++ ">" ++ serializeL c ++ "</" ++ t ++ ">"

/-- Serialization of a forest; `document.body.innerHTML` is
`serializeL` of the body's children. -/
def serializeL : List Node → String
  | [] => ""
  | n :: ns => serializeN n ++ serializeL ns

end

/-- The selector string used in `test-generatior.ts`:
`'link, script, style, svg, meta'`. -/
def genSelector : List String := ["link", "script", "style", "svg", "meta"]

/-- The selector string used in `tester.ts`: `'link, script, style'`. -/
def testerSelector : List String := ["link", "script", "style"]

/-- The body-HTML capture performed by `page.evaluate` in either variant:
strip `style` attributes everywhere, remove the selected descendants,
serialize what is left of the body's children. -/
def evalCapture (sel : List String) (dom : List Node) : String :=
  serializeL (removeSelL sel (stripStyleL dom))

mutual

/-- Specification-side description of the sanitization (clause 3/4 of the
spec's pipeline): the document with every node of a selected kind removed,
written as a standalone recursion (nodes are pruned before any attribute
work).  Compared against the source-derived `evalCapture` in claim C1. -/
def specRemovedN (sel : List String) : Node → Node
  | .elem t a c => .elem t a (specRemovedL sel c)
  | .text s => .text s

/-- Specification-side node pruning on a forest. -/
def specRemovedL (sel : List String) : List Node → List Node
  | [] => []
  | .elem t a c :: ns =>
    if t ∈ sel then specRemovedL sel ns
    else .elem t a (specRemovedL sel c) :: specRemovedL sel ns
  | .text s :: ns => .text s :: specRemovedL sel ns

end

/-- Specification-side capture: first remove the styling/script/meta nodes,
then strip the `style` attribute from every remaining element, then
serialize — the spec's reading of steps (3) and (4). -/
def specCapture (sel : List String) (dom : List Node) : String :=
  serializeL (stripStyleL (specRemovedL sel dom))

/-! ## Prompt templates

The template literals of the two scripts, split at their interpolation
points (literal braces are written with hex escapes). -/

def genTmpl1A : String :=
  "Extract the html tags (<p> <input<button>, <div>, <form>, <label>, <textarea>, <select>, <a>, <img>, <span>, <h1>, <h2>, <h3>, <h4>, <h5>, <h6> ...etc) with its identifiers (e.g. id, test-id, class name, role, value, placeholder, text, name) for testing purposes with playwright automation testing for the \x7btest-senario\x7d on the following HTML. Strictly follow the \x7brules\x7d. Make sure the response is valid JSON, nothing else.\n          html: "

def genTmpl1B : String :=
  ". \n          test-senario: "

def genTmpl1C : String :=
  ".\n          rules: \n            1. Only return the HTML tags and their identifiers that is needed for the playwright test. \n            2. Return the tags in the order they appear in the HTML. \n            3. Only return the required tags, nothing else.\n            4. Return in JSON format. \n\n          example output:\n          \x7b\n            \"tags\": [\n              \x7b\n                \"test_step\": \"search for the term \"AI in healthcare\"\",\n                \"tag\": \"input\",\n                \"id\": \"search\",\n                \"class\": \"form-control\",\n                \"required\": true,\n                \"role\": \"button\" || null,\n                \"value\": \"your search term\" || null,\n                \"text\": \"your search term\" || null,\n                \"name\": \"your search term\" || null\n              \x7d,\n              \x7b\n                \"test_step\": \"click the search button\",\n                \"tag\": \"button\",\n                \"id\": \"search-button\",\n                \"class\": \"btn btn-primary\",\n                \"required\": true,\n                \"role\": \"button\" || null,\n                \"value\": \"search\" || null,\n                \"text\": \"Search\" || null,\n                \"name\": \"search\" || null\n              \x7d\n            ]\n          \x7d"

def genTmpl2A : String :=
  "Generate Playwright test code based on the following \x7btestingSenario\x7d and \x7btestingData\x7d. Strictly follow the \x7brules\x7d. You can use the \x7bexample output\x7d as a reference.\n        testing scenario: "

def genTmpl2B : String :=
  "\n        testing data: "

def genTmpl2C : String :=
  "\n        rules: \n          1. only return the code, nothing else. \n          2. the code should be valid playwright code. \n          3. the code should be able to run without errors. \n          4.  return the playwright code in a function.\n          5. Code should be returned as valid Playwright JavaScript.\n          6. Do not include any additional text, comments, or explanations before or after the code (for example, do not include \"Here\x27s the Playwright test code based on the provided testing scenario and data:\" or any other introductory text).\n          7. The code must be in a function format.\n          8. Ensure that the code runs without errors.\n          9. code should have all the needed imports.\n          10. code should have the export keyword.\n          11. The function should be named test.\n          12. The function should be async.\n        example output:\n          \"import \x7b chromium \x7d from \x27playwright\x27;\n          export const test = async () => \x7b\n            const browser = await chromium.launch();\n            const page = await browser.newPage();\n            await page.goto(\x27https://www.facebook.com\x27);\n\n            await page.fill(\x27#email\x27, \x27your_email@example.com\x27);\n            await page.fill(\x27#pass\x27, \x27your_password\x27);\n            await page.click(\x27#u_0_5_9v\x27);\n          \x7d;\"\n        "

def testerTmpl1A : String :=
  "Extract the html tags (<p> <input<button>, <div>, <form>, <label>, <textarea>, <select>, <a>, <img>, <span>, <h1>, <h2>, <h3>, <h4>, <h5>, <h6> ...etc) with its identifiers (like ids, test ids, class names, roles, values, placeholders or whatever is needed) for testing purposes with playwright automation testing for the \x7btest-senario\x7d on the following HTML. Strictly follow the \x7brules\x7d. Make sure the response is valid JSON, nothing else.\n          html: "

def testerTmpl1B : String :=
  ". \n          test-senario: "

def testerTmpl1C : String :=
  ".\n          rules: 1. Only return the HTML tags and their identifiers that is needed for the test. 2. Return in JSON format. 3. Return the tags in the order they appear in the HTML. 3. flag the tags that are required for the test to pass. 4. only return the required tages, nothing else.\n          example output:\n          \x7b\n            \"tags\": [\n              \x7b\n                \"test_step\": \"step 1\",\n                \"tag\": \"input\",\n                \"id\": \"username\",\n                \"class\": \"form-control\",\n                \"required\": true\n                \"role\": \"input\" || null,\n                \"value\": \"username\" || null,\n                \"placeholder\": \"Enter your username\" || null\n              \x7d,\n              \x7b\n                \"test_step\": \"step 2\",\n                \"tag\": \"button\",\n                \"id\": \"submit\",\n                \"class\": \"btn btn-primary\",\n                \"required\": true\n                \"role\": \"button\" || null,\n                \"value\": \"Submit\" || null,\n              \x7d\n            ]\n          \x7d"

def testerTmpl2A : String :=
  "Generate Playwright test code based on the following \x7btestingSenario\x7d and \x7btestingData\x7d. Strictly follow the \x7brules\x7d.\n        testing scenario: "

def testerTmpl2B : String :=
  "\n        testing data: "

def testerTmpl2C : String :=
  "\n        rules: 1. only return the code, nothing else. 2. the code should be valid playwright code. 3. the code should be able to run without errors. 4.  return the playwright code in a function.\n        You should generate Playwright test code strictly following these rules:\n        - Code should be returned as valid Playwright JavaScript.\n        - Do not include any additional text, comments, or explanations before or after the code (for example, do not include \"Here\x27s the Playwright test code based on the provided testing scenario and data:\" or any other introductory text).\n        - The code must be in a function format.\n        - Ensure that the code runs without errors.\n        example output:\n        const test = async () => \x7b\n          export const test = async () => \x7b\n            const page = await browser.newPage();\n            ...more code\n          \x7d\n        \x7d\n        "
/-- The first-stage prompt of `test-generatior.ts` (the interpolations are
`bodyHtml.trim()` and `testName`). -/
def genPrompt1 (bodyHtml testName : String) : String :=
  genTmpl1A ++ jsTrim bodyHtml ++ genTmpl1B ++ testName ++ genTmpl1C

/-- The second-stage prompt of `test-generatior.ts` (the interpolations are
`testSenario` and `JSON.stringify(parsedData)`). -/
def genPrompt2 (payload testSenario : String) : String :=
  genTmpl2A ++ testSenario ++ genTmpl2B ++ payload ++ genTmpl2C

/-- The first-stage prompt of `tester.ts` (the interpolations are
`bodyHtml` — untrimmed — and `testName`). -/
def testerPrompt1 (bodyHtml testName : String) : String :=
  testerTmpl1A ++ bodyHtml ++ testerTmpl1B ++ testName ++ testerTmpl1C

/-- The second-stage prompt of `tester.ts`. -/
def testerPrompt2 (payload testSenario : String) : String :=
  testerTmpl2A ++ testSenario ++ testerTmpl2B ++ payload ++ testerTmpl2C

/-! ## The pipeline

`runTest` is embedded as a deterministic function of an environment of
oracles.  Each external operation either succeeds or throws; a thrown
error is a `String` (its message).  The LLM endpoint is an oracle from the
request prompt to an outcome; a successful response carries the list of
its content blocks, each modelled by its `text`.  The trace records the
effects the script performs, in order. -/

/-- A successful `anthropic.messages.create` response: the `text` fields of
`msg.content`.  (`model`, `max_tokens` and `temperature` are constant in
each script and play no role in any claim.) -/
structure LlmResp where
  content : List String
deriving DecidableEq

/-- What distinguishes the two pipeline variants: the selector stripped in
`page.evaluate`, whether the first-stage response is `JSON.parse`d, and the
two prompt builders. -/
structure Variant where
  stripSel : List String
  parseJson : Bool
  mkPrompt1 : String → String → String
  mkPrompt2 : String → String → String

/-- The `test-generatior.ts` variant: strips link/script/style/svg/meta,
does not JSON-parse the first response (so the second prompt embeds
`JSON.stringify` of the raw string). -/
def generatorVariant : Variant :=
  ⟨genSelector, false, genPrompt1, genPrompt2⟩

/-- The `tester.ts` variant: strips link/script/style only, and
`JSON.parse`s the first response. -/
def testerVariant : Variant :=
  ⟨testerSelector, true, testerPrompt1, testerPrompt2⟩

/-- The environment of external collaborators for one invocation. -/
structure Env where
  /-- `chromium.launch({ headless: false })` -/
  launch : Except String Unit
  /-- `browser.newPage()` -/
  newPage : Except String Unit
  /-- `page.goto(url)` -/
  nav : Except String Unit
  /-- the state of `document.body` when `page.evaluate` runs -/
  dom : List Node
  /-- transport success of `page.evaluate` itself -/
  evalOk : Except String Unit
  /-- the endpoint behind the first `messages.create` call -/
  llm1 : String → Except String LlmResp
  /-- the endpoint behind the second `messages.create` call -/
  llm2 : String → Except String LlmResp
  /-- `fs.writeFileSync('src/test.ts', ...)` -/
  write : Except String Unit
  /-- `page.close()` in the `finally` block -/
  pageClose : Except String Unit
  /-- `browser.close()` in the `finally` block -/
  browserClose : Except String Unit

/-- One observable effect of a run. -/
inductive Ev where
  /-- the browser was launched -/
  | launched
  /-- the page was opened -/
  | pageOpened
  /-- `page.goto(url)` returned -/
  | navigated (url : String)
  /-- `page.evaluate` returned the captured body HTML -/
  | evaluated (html : String)
  /-- a `console.log` call, identified by its leading literal -/
  | logged (tag : String)
  /-- `anthropic.messages.create` was invoked for the given stage -/
  | llmRequest (stage : Nat) (prompt : String)
  /-- the top-level `catch` ran `console.error('Test failed:', ...)` -/
  | caughtError
  /-- `fs.writeFileSync(path, data)` succeeded -/
  | wrote (path : String) (data : String)
  /-- `page.close()` succeeded -/
  | pageClosed
  /-- `browser.close()` succeeded -/
  | browserClosed
deriving DecidableEq

/-- The result of one invocation: the trace of effects and, when the
promise returned by `runTest` rejects, the escaping error. -/
structure Outcome where
  trace : List Ev
  rejected : Option String
deriving DecidableEq

/-- The `finally` block: `if (page) await page.close(); if (browser) await
browser.close();`.  An error thrown by `page.close()` aborts the block (so
`browser.close()` is skipped) and escapes; likewise for `browser.close()`. -/
def cleanup (env : Env) (pageOpen browserOpen : Bool) : List Ev × Option String :=
  if pageOpen then
    match env.pageClose with
    | .error e => ([], some e)
    | .ok _ =>
      if browserOpen then
        match env.browserClose with
        | .error e => ([Ev.pageClosed], some e)
        | .ok _ => ([Ev.pageClosed, Ev.browserClosed], none)
      else ([Ev.pageClosed], none)
  else
    if browserOpen then
      match env.browserClose with
      | .error e => ([], some e)
      | .ok _ => ([Ev.browserClosed], none)
    else ([], none)

/-- Run the `finally` block after the given events of the `try`/`catch`
part, producing the invocation's outcome. -/
def finish (env : Env) (evs : List Ev) (pageOpen browserOpen : Bool) : Outcome :=
  ⟨evs ++ (cleanup env pageOpen browserOpen).1, (cleanup env pageOpen browserOpen).2⟩

/-- The data handed to the second stage.  In `tester.ts` the first response
is `JSON.parse`d — a parse failure throws — and re-serialized with
`JSON.stringify`; the parse/stringify round trip of a valid document is
modelled as the identity on its source text (only its validity and
determinism matter to any claim).  In `test-generatior.ts` the raw string
is passed along, so `JSON.stringify(parsedData)` quotes and escapes it. -/
def stagePayload (v : Variant) (contentText : String) : Option String :=
  if v.parseJson then
    if jsonValid contentText then some contentText else none
  else
    some (jsQuote contentText)

/-- The events common to every run that reaches the first LLM call. -/
def preEvents (v : Variant) (env : Env) (url : String) : List Ev :=
  [Ev.launched, Ev.pageOpened, Ev.navigated url,
    Ev.evaluated (evalCapture v.stripSel env.dom), Ev.logged "bodyHtml"]

/-- The first-stage prompt actually sent, as a function of the variant,
the environment and `testName`. -/
def prompt1 (v : Variant) (env : Env) (testName : String) : String :=
  v.mkPrompt1 (evalCapture v.stripSel env.dom) testName

/-- The embedding of `runTest(url, testName)`, common to both variants.
The `try` body runs the pipeline steps in source order, recording effects;
the first thrown error transfers control to the `catch` (which logs), and
the `finally` cleanup always runs. -/
def runTestG (v : Variant) (env : Env) (url testName : String) : Outcome :=
  match env.launch with
  | .error _ => finish env [Ev.caughtError] false false
  | .ok _ =>
    match env.newPage with
    | .error _ => finish env [Ev.launched, Ev.caughtError] false true
    | .ok _ =>
      match env.nav with
      | .error _ => finish env [Ev.launched, Ev.pageOpened, Ev.caughtError] true true
      | .ok _ =>
        match env.evalOk with
        | .error _ =>
          finish env [Ev.launched, Ev.pageOpened, Ev.navigated url, Ev.caughtError] true true
        | .ok _ =>
          match env.llm1 (prompt1 v env testName) with
          | .error _ =>
            finish env (preEvents v env url ++
              [Ev.llmRequest 1 (prompt1 v env testName), Ev.caughtError]) true true
          | .ok m1 =>
            match m1.content.head? with
            | none =>
              finish env (preEvents v env url ++
                [Ev.llmRequest 1 (prompt1 v env testName), Ev.caughtError]) true true
            | some contentText =>
              match stagePayload v contentText with
              | none =>
                finish env (preEvents v env url ++
                  [Ev.llmRequest 1 (prompt1 v env testName), Ev.caughtError]) true true
              | some payload =>
                match env.llm2 (v.mkPrompt2 payload testName) with
                | .error _ =>
                  finish env (preEvents v env url ++
                    [Ev.llmRequest 1 (prompt1 v env testName),
                      Ev.llmRequest 2 (v.mkPrompt2 payload testName), Ev.caughtError]) true true
                | .ok m2 =>
                  match m2.content.head? with
                  | none =>
                    finish env (preEvents v env url ++
                      [Ev.llmRequest 1 (prompt1 v env testName),
                        Ev.llmRequest 2 (v.mkPrompt2 payload testName), Ev.caughtError]) true true
                  | some code =>
                    match env.write with
                    | .error _ =>
                      finish env (preEvents v env url ++
                        [Ev.llmRequest 1 (prompt1 v env testName),
                          Ev.llmRequest 2 (v.mkPrompt2 payload testName),
                          Ev.logged "playwrightCode", Ev.caughtError]) true true
                    | .ok _ =>
                      finish env (preEvents v env url ++
                        [Ev.llmRequest 1 (prompt1 v env testName),
                          Ev.llmRequest 2 (v.mkPrompt2 payload testName),
                          Ev.logged "playwrightCode", Ev.wrote "src/test.ts" code,
                          Ev.logged "saved"]) true true

/-- `runTest` of `src/test-generatior.ts`. -/
def runTestGen (env : Env) (url testName : String) : Outcome :=
  runTestG generatorVariant env url testName

/-- `runTest` of `src/tester.ts`. -/
def runTestTester (env : Env) (url testName : String) : Outcome :=
  runTestG testerVariant env url testName

/-! ## Trace observables -/

/-- Is this event a successful file write? -/
def isWrote : Ev → Bool
  | .wrote _ _ => true
  | _ => false

/-- Is this event a `messages.create` invocation for the given stage? -/
def isLlmReq (stage : Nat) : Ev → Bool
  | .llmRequest s _ => s == stage
  | _ => false

/-- Is this event a successful browser launch? -/
def isLaunched : Ev → Bool
  | .launched => true
  | _ => false

/-- Is this event a successful page open? -/
def isPageOpened : Ev → Bool
  | .pageOpened => true
  | _ => false

/-- The data-bearing observables of a run: the captured HTML, the prompts
sent to the endpoint, and the written file. -/
def isData : Ev → Bool
  | .evaluated _ => true
  | .llmRequest _ _ => true
  | .wrote _ _ => true
  | _ => false

/-- The position of each effect in the pipeline's stated order; used to
express that every trace is strictly ordered. -/
def stepRank : Ev → Nat
  | .launched => 0
  | .pageOpened => 1
  | .navigated _ => 2
  | .evaluated _ => 3
  | .logged s => if s == "bodyHtml" then 4 else if s == "playwrightCode" then 7 else 9
  | .llmRequest s _ => 4 + s
  | .wrote _ _ => 8
  | .caughtError => 10
  | .pageClosed => 11
  | .browserClosed => 12

/-- The data observables of a run that completes its write, as a function
of the page content and the two endpoint oracles alone (url and the
failure behaviour of every other collaborator do not enter). -/
def successData (v : Variant) (dom : List Node)
    (llm1 llm2 : String → Except String LlmResp) (testName : String) : List Ev :=
  match llm1 (v.mkPrompt1 (evalCapture v.stripSel dom) testName) with
  | .error _ => []
  | .ok m1 =>
    match m1.content.head? with
    | none => []
    | some contentText =>
      match stagePayload v contentText with
      | none => []
      | some payload =>
        match llm2 (v.mkPrompt2 payload testName) with
        | .error _ => []
        | .ok m2 =>
          match m2.content.head? with
          | none => []
          | some code =>
            [Ev.evaluated (evalCapture v.stripSel dom),
              Ev.llmRequest 1 (v.mkPrompt1 (evalCapture v.stripSel dom) testName),
              Ev.llmRequest 2 (v.mkPrompt2 payload testName),
              Ev.wrote "src/test.ts" code]

/-! ## Concrete environments used as witnesses and counterexamples -/

/-- A small body: one `div` with a `style` attribute and a text child. -/
def okDom : List Node :=
  [Node.elem "div" [("id", "main"), ("style", "color: red")] [Node.text "hi"]]

/-- Everything succeeds; the first response is the valid JSON document
consisting of an empty object, the second is a code block. -/
def envAllOk : Env where
  launch := .ok ()
  newPage := .ok ()
  nav := .ok ()
  dom := okDom
  evalOk := .ok ()
  llm1 := fun _ => .ok ⟨["\x7b\x7d"]⟩
  llm2 := fun _ => .ok ⟨["export const test = async () => \x7b\x7d"]⟩
  write := .ok ()
  pageClose := .ok ()
  browserClose := .ok ()

/-- As `envAllOk`, but `chromium.launch` throws. -/
def envLaunchFail : Env :=
  { envAllOk with launch := .error "net::ERR_FAILED" }

/-- As `envAllOk`, but `page.close()` in the `finally` block throws. -/
def envPageCloseFail : Env :=
  { envAllOk with pageClose := .error "Target closed" }

/-- As `envAllOk`, but the first-stage response is not valid JSON. -/
def envBadJson : Env :=
  { envAllOk with llm1 := fun _ => .ok ⟨["Sure! Here are the tags:"]⟩ }

/-! ## `sanitizeHTML` (playwrite_test_auto-1.md, lines 182-192)

The five chained `String.replace(pattern, '')` calls are embedded as five
left-to-right scan-and-remove passes.  Each JS pattern is deterministic:
`<tag[^>]*>` is the literal followed by everything up to and including the
first `>`, and the lazy `[\s\S]*?</tag>` ends at the first occurrence of
the closing literal.  The `gi` flags make every literal case-insensitive
and restart the scan after each removed match. -/

/-- Case-insensitively consume the literal `pat` (given in lower case) from
the head of the input, returning the remainder. -/
def ciStrip : List Char → List Char → Option (List Char)
  | [], s => some s
  | _ :: _, [] => none
  | p :: ps, c :: cs => if c.toLower == p then ciStrip ps cs else none

/-- Consume `[^>]*>`: everything up to and including the first `>`. -/
def gtClose : List Char → Option (List Char)
  | [] => none
  | c :: cs => if c == '>' then some cs else gtClose cs

/-- Split at the first `>`: the characters strictly before it and the
remainder strictly after it. -/
def splitGt : List Char → Option (List Char × List Char)
  | [] => none
  | c :: cs =>
    if c == '>' then some ([], cs)
    else (splitGt cs).map (fun p => (c :: p.1, p.2))

/-- The lazy `[\s\S]*?pat`: skip to the first case-insensitive occurrence
of `pat` and return the input after it. -/
def findCi (pat : List Char) : List Char → Option (List Char)
  | [] => ciStrip pat []
  | c :: cs =>
    match ciStrip pat (c :: cs) with
    | some r => some r
    | none => findCi pat cs

/-- A `<open[^>]*>[\s\S]*?<close>` element pattern, tried at the current
position; on success returns the input after the match. -/
def tryPair (openPat closePat : List Char) (l : List Char) : Option (List Char) := do
  let r ← ciStrip openPat l
  let r2 ← gtClose r
  findCi closePat r2

/-- `<script[^>]*>[\s\S]*?<\/script>` at the current position. -/
def tryScript : List Char → Option (List Char) :=
  tryPair "<script".data "</script>".data

/-- `<style[^>]*>[\s\S]*?<\/style>` at the current position. -/
def tryStyleEl : List Char → Option (List Char) :=
  tryPair "<style".data "</style>".data

/-- `<svg[^>]*>[\s\S]*?<\/svg>` at the current position. -/
def trySvg : List Char → Option (List Char) :=
  tryPair "<svg".data "</svg>".data

/-- `<meta[^>]*>` at the current position. -/
def tryMeta (l : List Char) : Option (List Char) := do
  let r ← ciStrip "<meta".data l
  gtClose r

/-- `rel=["']stylesheet["']` at the current position (the quotes are
matched independently, as in the JS character classes). -/
def relHere (l : List Char) : Bool :=
  match ciStrip "rel=".data l with
  | none => false
  | some r =>
    match r with
    | q :: r1 =>
      (q == '"' || q == '\x27') &&
        (match ciStrip "stylesheet".data r1 with
          | some (q2 :: _) => q2 == '"' || q2 == '\x27'
          | _ => false)
    | [] => false

/-- Does `rel=["']stylesheet["']` occur anywhere in the chunk? -/
def hasRel : List Char → Bool
  | [] => false
  | c :: cs => relHere (c :: cs) || hasRel cs

/-- `<link[^>]*rel=["']stylesheet["'][^>]*>` at the current position: the
final `>` is necessarily the first `>` after `<link` (no character class
in the pattern admits `>`), and backtracking makes the pattern succeed iff
the chunk before it contains `rel=["']stylesheet["']`. -/
def tryLink (l : List Char) : Option (List Char) := do
  let r ← ciStrip "<link".data l
  let (chunk, rest) ← splitGt r
  if hasRel chunk then some rest else none

/-- One global-replace-with-empty pass: scan left to right, remove each
match and continue after it (`lastIndex` semantics of a `g`-flagged
replace), keep the character and move on where no match starts. -/
def stripGo (f : List Char → Option (List Char)) : Nat → List Char → List Char
  | 0, l => l
  | _ + 1, [] => []
  | fuel + 1, c :: cs =>
    match f (c :: cs) with
    | some r => stripGo f fuel r
    | none => c :: stripGo f fuel cs

/-- `String.replace(pattern, '')` over a whole input (the input's length
bounds the number of scan steps, as every match is nonempty). -/
def stripAll (f : List Char → Option (List Char)) (l : List Char) : List Char :=
  stripGo f l.length l

/-- `sanitizeHTML` of `playwrite_test_auto-1.md`: the five replacements in
source order — script, style, stylesheet link, svg, meta. -/
def sanitizeHTML (html : String) : String :=
  String.mk
    (stripAll tryMeta
      (stripAll trySvg
        (stripAll tryLink
          (stripAll tryStyleEl
            (stripAll tryScript html.data)))))

/-- Does a match of `f` start at some position of the input? -/
def hasMatch (f : List Char → Option (List Char)) : List Char → Bool
  | [] => (f []).isSome
  | c :: cs => (f (c :: cs)).isSome || hasMatch f cs

/-- Does the string contain a substring matched by any of the five removal
patterns of `sanitizeHTML`? -/
def matchesAnyPattern (s : String) : Bool :=
  hasMatch tryScript s.data || hasMatch tryStyleEl s.data ||
    hasMatch tryLink s.data || hasMatch trySvg s.data || hasMatch tryMeta s.data

/-! ## `filterHTML` (playwrite_test_auto-1.md, lines 200-227)

The tag scan regex `<(\/?)(\w+)([^>]*)>` is deterministic: optional slash,
a maximal run of word characters, then everything up to the first `>`.
Each scanned tag is kept iff the default criterion
`<(input|button|select|textarea|a|form|div|span|label|h[1-6])\b[^>]*>`
matches somewhere in the probe string `'<' + closingSlash + tagName`. -/

/-- JS `\w`. -/
def isWordChar (c : Char) : Bool :=
  c.isAlpha || c.isDigit || c == '_'

/-- Parse `(\w+)([^>]*)>` after `<` and the optional slash: the tag name,
the attribute chunk and the remainder after the closing `>`. -/
def tagAfterLt (slash : String) (r1 : List Char) :
    Option ((String × String × String) × List Char) :=
  match r1 with
  | c :: r2 =>
    if isWordChar c then
      match splitGt (r2.dropWhile isWordChar) with
      | some (attrs, rest) =>
        some ((slash, String.mk (c :: r2.takeWhile isWordChar), String.mk attrs), rest)
      | none => none
    else none
  | [] => none

/-- The tag-scan pattern `<(\/?)(\w+)([^>]*)>` at the current position:
on success, the captures `(closingSlash, tagName, attributes)` and the
remainder of the input. -/
def tryTag : List Char → Option ((String × String × String) × List Char)
  | '<' :: '/' :: r => tagAfterLt "/" r
  | '<' :: r => tagAfterLt "" r
  | _ => none

/-- The global tag scan of `filterHTML`'s `while` loop: all matches of the
tag pattern, left to right. -/
def scanTags : Nat → List Char → List (String × String × String)
  | 0, _ => []
  | _ + 1, [] => []
  | fuel + 1, c :: cs =>
    match tryTag (c :: cs) with
    | some (m, rest) => m :: scanTags fuel rest
    | none => scanTags fuel cs

/-- The alternatives of the default criterion other than `h[1-6]`, in
source order. -/
def defaultAlts : List (List Char) :=
  ["input".data, "button".data, "select".data, "textarea".data, "a".data,
    "form".data, "div".data, "span".data, "label".data]

/-- After an alternative has matched: `\b[^>]*>` — the next character must
not be a word character (every alternative ends in one), and a `>` must
occur in the remainder. -/
def altTail (rest : List Char) : Bool :=
  match rest with
  | [] => false
  | c :: _ => !isWordChar c && rest.any (fun x => x == '>')

/-- The default criterion tried at the current position (`i` flag: all
literals are matched case-insensitively). -/
def critHere (l : List Char) : Bool :=
  match l with
  | '<' :: r =>
    (defaultAlts.any (fun a =>
      match ciStrip a r with
      | some rest => altTail rest
      | none => false)) ||
      (match r with
        | c :: d :: rest => c.toLower == 'h' && ('1' ≤ d && d ≤ '6') && altTail rest
        | _ => false)
  | _ => false

/-- `criterion.test(s)`: does the default criterion match at any position?
(The JS `g`-flag `lastIndex` statefulness is irrelevant here: the criterion
never matches a probe string, so `lastIndex` stays 0 — proved below.) -/
def critTest (s : String) : Bool :=
  s.data.tails.any critHere

/-- `filterHTML` of `playwrite_test_auto-1.md`, called with no explicit
criteria, so the default interactive-element criterion is used.  Each
scanned tag is reassembled and kept iff the criterion accepts the probe
`'<' + closingSlash + tagName`; the kept tags are joined by newlines. -/
def filterHTML (html : String) : String :=
  String.intercalate "\n"
    ((scanTags html.data.length html.data).filterMap (fun m =>
      if critTest ("<" ++ m.1 ++ m.2.1) then some ("<" ++ m.1 ++ m.2.1 ++ m.2.2 ++ ">")
      else none))

/-! # Theorems

First a toolkit about the `finally` cleanup and the shared pipeline body,
then one theorem (plus witness/counterexample) per claim. -/

theorem cleanup_countP (env : Env) (po bo : Bool) (p : Ev → Bool)
    (hpc : p Ev.pageClosed = false) (hbc : p Ev.browserClosed = false) :
    ((cleanup env po bo).1).countP p = 0 := by
  unfold cleanup
  repeat' split
  all_goals simp [List.countP_cons, hpc, hbc]

theorem cleanup_countP_llm (env : Env) (po bo : Bool) (s : Nat) :
    ((cleanup env po bo).1).countP (isLlmReq s) = 0 :=
  cleanup_countP env po bo _ rfl rfl

theorem cleanup_countP_wrote (env : Env) (po bo : Bool) :
    ((cleanup env po bo).1).countP isWrote = 0 :=
  cleanup_countP env po bo _ rfl rfl

theorem cleanup_countP_launched (env : Env) (po bo : Bool) :
    ((cleanup env po bo).1).countP isLaunched = 0 :=
  cleanup_countP env po bo _ rfl rfl

theorem cleanup_countP_pageOpened (env : Env) (po bo : Bool) :
    ((cleanup env po bo).1).countP isPageOpened = 0 :=
  cleanup_countP env po bo _ rfl rfl

theorem cleanup_not_caught (env : Env) (po bo : Bool) :
    Ev.caughtError ∉ (cleanup env po bo).1 := by
  unfold cleanup
  repeat' split
  all_goals simp

theorem cleanup_not_wrote (env : Env) (po bo : Bool) (pa da : String) :
    Ev.wrote pa da ∉ (cleanup env po bo).1 := by
  unfold cleanup
  repeat' split
  all_goals simp

theorem cleanup_filter_isData (env : Env) (po bo : Bool) :
    ((cleanup env po bo).1).filter isData = [] := by
  unfold cleanup
  repeat' split
  all_goals simp [isData]

/-- When both close calls succeed, the cleanup closes exactly what is open
and nothing escapes. -/
theorem cleanup_ok (env : Env) (po bo : Bool)
    (hpc : env.pageClose = .ok ()) (hbc : env.browserClose = .ok ()) :
    cleanup env po bo =
      ((if po then [Ev.pageClosed] else []) ++ (if bo then [Ev.browserClosed] else []),
        none) := by
  unfold cleanup
  rw [hpc, hbc]
  cases po <;> cases bo <;> simp

/-- Each pipeline stage issues its `messages.create` call at most once, and
exactly once in a run that completes its file write. -/
theorem runTestG_llm_counts (v : Variant) (env : Env) (u t : String) :
    (runTestG v env u t).trace.countP (isLlmReq 1) ≤ 1 ∧
    (runTestG v env u t).trace.countP (isLlmReq 2) ≤ 1 ∧
    (0 < (runTestG v env u t).trace.countP isWrote →
      (runTestG v env u t).trace.countP (isLlmReq 1) = 1 ∧
      (runTestG v env u t).trace.countP (isLlmReq 2) = 1) := by
  unfold runTestG
  repeat' split
  all_goals
    simp [finish, preEvents, List.countP_append, List.countP_cons, isLlmReq, isWrote,
      cleanup_countP_llm, cleanup_countP_wrote]

/-- At most one browser and at most one page are opened, and exactly one of
each in a run that completes its file write. -/
theorem runTestG_open_counts (v : Variant) (env : Env) (u t : String) :
    (runTestG v env u t).trace.countP isLaunched ≤ 1 ∧
    (runTestG v env u t).trace.countP isPageOpened ≤ 1 ∧
    (0 < (runTestG v env u t).trace.countP isWrote →
      (runTestG v env u t).trace.countP isLaunched = 1 ∧
      (runTestG v env u t).trace.countP isPageOpened = 1) := by
  unfold runTestG
  repeat' split
  all_goals
    simp [finish, preEvents, List.countP_append, List.countP_cons, isLaunched,
      isPageOpened, isWrote, cleanup_countP_launched, cleanup_countP_pageOpened,
      cleanup_countP_wrote]

/-- At most one file write per run. -/
theorem runTestG_write_le_one (v : Variant) (env : Env) (u t : String) :
    (runTestG v env u t).trace.countP isWrote ≤ 1 := by
  unfold runTestG
  repeat' split
  all_goals
    simp [finish, preEvents, List.countP_append, List.countP_cons, isWrote,
      cleanup_countP_wrote]

/-- When the two cleanup close calls succeed, the promise resolves, and the
run either completed its write or logged a caught error. -/
theorem runTestG_resolved (v : Variant) (env : Env) (u t : String)
    (hpc : env.pageClose = .ok ()) (hbc : env.browserClose = .ok ()) :
    (runTestG v env u t).rejected = none ∧
    ((runTestG v env u t).trace.countP isWrote = 1 ∨
      Ev.caughtError ∈ (runTestG v env u t).trace) := by
  unfold runTestG
  repeat' split
  all_goals
    simp [finish, preEvents, cleanup_ok env _ _ hpc hbc, List.countP_append,
      List.countP_cons, isWrote]

/-- When the two close calls succeed, whatever was opened is closed. -/
theorem runTestG_closes (v : Variant) (env : Env) (u t : String)
    (hpc : env.pageClose = .ok ()) (hbc : env.browserClose = .ok ()) :
    (Ev.launched ∈ (runTestG v env u t).trace →
      Ev.browserClosed ∈ (runTestG v env u t).trace) ∧
    (Ev.pageOpened ∈ (runTestG v env u t).trace →
      Ev.pageClosed ∈ (runTestG v env u t).trace) := by
  unfold runTestG
  repeat' split
  all_goals
    simp [finish, preEvents, cleanup_ok env _ _ hpc hbc]

/-- Every successful write targets the fixed path `src/test.ts`. -/
theorem runTestG_write_path (v : Variant) (env : Env) (u t pa da : String) :
    Ev.wrote pa da ∈ (runTestG v env u t).trace → pa = "src/test.ts" := by
  unfold runTestG
  repeat' split
  all_goals
    intro hmem
    simp [finish, preEvents, List.mem_append, cleanup_not_wrote] at hmem
  all_goals exact hmem.1

/-- A run that logs a caught error never writes the output file. -/
theorem runTestG_atomic (v : Variant) (env : Env) (u t : String) :
    Ev.caughtError ∈ (runTestG v env u t).trace →
    (runTestG v env u t).trace.countP isWrote = 0 := by
  unfold runTestG
  repeat' split
  all_goals
    intro hmem
    simp [finish, preEvents, List.countP_append, List.countP_cons, isWrote,
      cleanup_countP_wrote]
  all_goals
    simp [finish, preEvents, List.mem_append, cleanup_not_caught] at hmem

/-- Every trace is strictly ordered by the pipeline's stated step order. -/
theorem runTestG_chain (v : Variant) (env : Env) (u t : String) :
    List.Chain' (fun a b => stepRank a < stepRank b) (runTestG v env u t).trace := by
  unfold runTestG finish cleanup
  repeat' split
  all_goals
    simp [preEvents, List.chain'_append, List.chain'_cons, stepRank]

/-- A run either never writes, or its data observables are exactly the
function `successData` of the page content and the two endpoints. -/
theorem runTestG_data_or (v : Variant) (env : Env) (u t : String) :
    (runTestG v env u t).trace.countP isWrote = 0 ∨
    (runTestG v env u t).trace.filter isData = successData v env.dom env.llm1 env.llm2 t := by
  unfold runTestG
  repeat' split
  all_goals first
    | (left
       simp [finish, preEvents, List.countP_append, List.countP_cons, isWrote,
         cleanup_countP_wrote]
       done)
    | (right
       simp_all [finish, preEvents, successData, prompt1, isData, List.filter_append,
         cleanup_filter_isData])

/-- In `tester.ts`, a first-stage response whose text is not valid JSON
makes `JSON.parse` throw: the error is caught and logged and no file is
written. -/
theorem runTestTester_bad_json (env : Env) (u t : String) (m : LlmResp) (r : String)
    (h1 : env.llm1 (prompt1 testerVariant env t) = .ok m)
    (h2 : m.content.head? = some r)
    (h3 : jsonValid r = false) :
    Ev.caughtError ∈ (runTestTester env u t).trace ∧
    (runTestTester env u t).trace.countP isWrote = 0 := by
  unfold runTestTester runTestG
  repeat' split
  all_goals
    simp_all [finish, preEvents, stagePayload, testerVariant, List.mem_append,
      List.countP_append, List.countP_cons, isWrote, cleanup_countP_wrote,
      cleanup_not_caught]

/-- In `test-generatior.ts` the first-stage response is never parsed as
JSON: whatever its text, when every collaborator succeeds the run writes
the output file and catches nothing. -/
theorem runTestGen_writes_through (env : Env) (u t : String) (m1 m2 : LlmResp)
    (r c0 : String)
    (hl : env.launch = .ok ()) (hn : env.newPage = .ok ()) (hg : env.nav = .ok ())
    (he : env.evalOk = .ok ())
    (h1 : env.llm1 (prompt1 generatorVariant env t) = .ok m1)
    (h2 : m1.content.head? = some r)
    (h3 : env.llm2 (generatorVariant.mkPrompt2 (jsQuote r) t) = .ok m2)
    (h4 : m2.content.head? = some c0)
    (hw : env.write = .ok ()) :
    (runTestGen env u t).trace.countP isWrote = 1 ∧
    Ev.caughtError ∉ (runTestGen env u t).trace := by
  unfold runTestGen runTestG
  simp only [prompt1, generatorVariant, stagePayload] at h1 h3 ⊢
  simp [hl, hn, hg, he, h1, h2, h3, h4, hw,
    finish, preEvents, List.countP_append, List.countP_cons, isWrote,
    cleanup_countP_wrote, List.mem_append, cleanup_not_caught]

/-- C2 counterexample: the claim "the promise returned by runTest never
rejects" is false.  When `page.close()` in the `finally` block throws, the
error escapes `runTest` and the promise rejects, in both variants. -/
theorem c2_counterexample :
    (runTestGen envPageCloseFail "https://www.youtube.com/"
      "search for \"AI in healthcare\"").rejected = some "Target closed" ∧
    (runTestTester envPageCloseFail "https://www.facebook.com"
      "login to facebook").rejected = some "Target closed" := by
  decide

/-- C2 (amended): every error raised by a pipeline step inside the `try`
block — navigation failure, either LLM call failure, a malformed response —
is caught at the single top-level catch and logged; the promise returned by
`runTest` can reject only when `page.close()` or `browser.close()` in the
`finally` block itself fails.  Whenever both cleanup calls succeed, the
promise resolves, the run having either completed its write or logged the
caught error.  This holds in both variants. -/
theorem c2_amended (env : Env) (u t : String)
    (hpc : env.pageClose = .ok ()) (hbc : env.browserClose = .ok ()) :
    ((runTestGen env u t).rejected = none ∧
      ((runTestGen env u t).trace.countP isWrote = 1 ∨
        Ev.caughtError ∈ (runTestGen env u t).trace)) ∧
    ((runTestTester env u t).rejected = none ∧
      ((runTestTester env u t).trace.countP isWrote = 1 ∨
        Ev.caughtError ∈ (runTestTester env u t).trace)) :=
  ⟨runTestG_resolved generatorVariant env u t hpc hbc,
    runTestG_resolved testerVariant env u t hpc hbc⟩

/-- C2 witness: at a fully successful environment the hypotheses hold and
the promise resolves. -/
theorem c2_witness : (runTestGen envAllOk "u" "t").rejected = none :=
  (c2_amended envAllOk "u" "t" rfl rfl).1.1

/-- C3 counterexample: the claim "exactly one browser instance and exactly
one page are opened, and both are closed ... in every execution path" is
false.  When `chromium.launch` throws, no browser is opened at all; and
when `page.close()` throws in the `finally` block, the opened browser is
never closed (`browser.close()` is skipped), so that execution ends with
the browser still open. -/
theorem c3_counterexample :
    (runTestGen envLaunchFail "u" "t").trace.countP isLaunched = 0 ∧
    (runTestGen envPageCloseFail "u" "t").trace.countP isLaunched = 1 ∧
    Ev.browserClosed ∉ (runTestGen envPageCloseFail "u" "t").trace := by
  decide

/-- C3 (amended): at most one browser and at most one page are opened per
invocation — exactly one of each on a run that completes its write — and
the `finally` step closes whatever was opened provided the close calls
themselves succeed (if `page.close()` throws, `browser.close()` is
skipped).  This holds in both variants. -/
theorem c3_amended (env : Env) (u t : String) :
    ((runTestGen env u t).trace.countP isLaunched ≤ 1 ∧
      (runTestGen env u t).trace.countP isPageOpened ≤ 1 ∧
      (0 < (runTestGen env u t).trace.countP isWrote →
        (runTestGen env u t).trace.countP isLaunched = 1 ∧
        (runTestGen env u t).trace.countP isPageOpened = 1) ∧
      (env.pageClose = .ok () → env.browserClose = .ok () →
        (Ev.launched ∈ (runTestGen env u t).trace →
          Ev.browserClosed ∈ (runTestGen env u t).trace) ∧
        (Ev.pageOpened ∈ (runTestGen env u t).trace →
          Ev.pageClosed ∈ (runTestGen env u t).trace))) ∧
    ((runTestTester env u t).trace.countP isLaunched ≤ 1 ∧
      (runTestTester env u t).trace.countP isPageOpened ≤ 1 ∧
      (0 < (runTestTester env u t).trace.countP isWrote →
        (runTestTester env u t).trace.countP isLaunched = 1 ∧
        (runTestTester env u t).trace.countP isPageOpened = 1) ∧
      (env.pageClose = .ok () → env.browserClose = .ok () →
        (Ev.launched ∈ (runTestTester env u t).trace →
          Ev.browserClosed ∈ (runTestTester env u t).trace) ∧
        (Ev.pageOpened ∈ (runTestTester env u t).trace →
          Ev.pageClosed ∈ (runTestTester env u t).trace))) :=
  ⟨⟨(runTestG_open_counts generatorVariant env u t).1,
      (runTestG_open_counts generatorVariant env u t).2.1,
      (runTestG_open_counts generatorVariant env u t).2.2,
      fun hpc hbc => runTestG_closes generatorVariant env u t hpc hbc⟩,
    ⟨(runTestG_open_counts testerVariant env u t).1,
      (runTestG_open_counts testerVariant env u t).2.1,
      (runTestG_open_counts testerVariant env u t).2.2,
      fun hpc hbc => runTestG_closes testerVariant env u t hpc hbc⟩⟩

/-- C3 witness: on a fully successful run the implications fire — the
browser was opened and is closed again. -/
theorem c3_witness : Ev.browserClosed ∈ (runTestGen envAllOk "u" "t").trace :=
  ((c3_amended envAllOk "u" "t").1.2.2.2 rfl rfl).1 (by decide)

/-- C4 (confirmed): the pipeline is strictly sequential in the stated
order.  Every trace of either variant is strictly increasing in the step
order (launch, page, navigation, capture, first LLM request, second LLM
request, file write, cleanup), so the browser launch precedes navigation,
navigation precedes the capture, the capture precedes the first LLM call,
the second LLM call starts only after the first returned, and the file
write happens only after the second returned. -/
theorem c4_sequential_order (env : Env) (u t : String) :
    List.Chain' (fun a b => stepRank a < stepRank b) (runTestGen env u t).trace ∧
    List.Chain' (fun a b => stepRank a < stepRank b) (runTestTester env u t).trace :=
  ⟨runTestG_chain generatorVariant env u t, runTestG_chain testerVariant env u t⟩

/-- C6 (confirmed): every file write of either variant targets the single
fixed path `src/test.ts` — independent of `url` and `testName` — and each
run writes at most one file. -/
theorem c6_fixed_output_path (env : Env) (u t pa da : String) :
    (Ev.wrote pa da ∈ (runTestGen env u t).trace → pa = "src/test.ts") ∧
    (Ev.wrote pa da ∈ (runTestTester env u t).trace → pa = "src/test.ts") ∧
    (runTestGen env u t).trace.countP isWrote ≤ 1 ∧
    (runTestTester env u t).trace.countP isWrote ≤ 1 :=
  ⟨runTestG_write_path generatorVariant env u t pa da,
    runTestG_write_path testerVariant env u t pa da,
    runTestG_write_le_one generatorVariant env u t,
    runTestG_write_le_one testerVariant env u t⟩

/-- C6 witness: the successful run writes, and the write hits the fixed
path. -/
theorem c6_witness : "src/test.ts" = "src/test.ts" :=
  (c6_fixed_output_path envAllOk "u" "t" "src/test.ts"
    "export const test = async () => \x7b\x7d").1 (by decide)

/-- C7 (confirmed): there is no retry — each of the two pipeline stages
calls `messages.create` at most once per invocation, and exactly once on a
run that completes its write; no step is re-attempted after an error.
This holds in both variants. -/
theorem c7_no_retry (env : Env) (u t : String) :
    ((runTestGen env u t).trace.countP (isLlmReq 1) ≤ 1 ∧
      (runTestGen env u t).trace.countP (isLlmReq 2) ≤ 1 ∧
      (0 < (runTestGen env u t).trace.countP isWrote →
        (runTestGen env u t).trace.countP (isLlmReq 1) = 1 ∧
        (runTestGen env u t).trace.countP (isLlmReq 2) = 1)) ∧
    ((runTestTester env u t).trace.countP (isLlmReq 1) ≤ 1 ∧
      (runTestTester env u t).trace.countP (isLlmReq 2) ≤ 1 ∧
      (0 < (runTestTester env u t).trace.countP isWrote →
        (runTestTester env u t).trace.countP (isLlmReq 1) = 1 ∧
        (runTestTester env u t).trace.countP (isLlmReq 2) = 1)) :=
  ⟨runTestG_llm_counts generatorVariant env u t,
    runTestG_llm_counts testerVariant env u t⟩

/-- C7 witness: the successful run writes, and each stage was called
exactly once. -/
theorem c7_witness :
    0 < (runTestGen envAllOk "u" "t").trace.countP isWrote ∧
    (runTestGen envAllOk "u" "t").trace.countP (isLlmReq 1) = 1 :=
  ⟨by decide, ((c7_no_retry envAllOk "u" "t").1.2.2 (by decide)).1⟩

/-- C8 (confirmed): with the page content and the two endpoint behaviours
taken as inputs, the pipeline is deterministic — two completed runs of the
same variant with the same url, testName, page content and LLM responses
have identical data observables: the same captured HTML, the same two
prompts, and the same output-file path and content. -/
theorem c8_deterministic (e1 e2 : Env) (u t : String)
    (hdom : e1.dom = e2.dom) (h1 : e1.llm1 = e2.llm1) (h2 : e1.llm2 = e2.llm2) :
    (0 < (runTestGen e1 u t).trace.countP isWrote →
      0 < (runTestGen e2 u t).trace.countP isWrote →
      (runTestGen e1 u t).trace.filter isData = (runTestGen e2 u t).trace.filter isData) ∧
    (0 < (runTestTester e1 u t).trace.countP isWrote →
      0 < (runTestTester e2 u t).trace.countP isWrote →
      (runTestTester e1 u t).trace.filter isData =
        (runTestTester e2 u t).trace.filter isData) := by
  constructor
  · intro hw1 hw2
    simp only [runTestGen] at hw1 hw2 ⊢
    rcases runTestG_data_or generatorVariant e1 u t with h | hA
    · exact absurd (h ▸ hw1) (lt_irrefl 0)
    rcases runTestG_data_or generatorVariant e2 u t with h | hB
    · exact absurd (h ▸ hw2) (lt_irrefl 0)
    rw [hA, hB, hdom, h1, h2]
  · intro hw1 hw2
    simp only [runTestTester] at hw1 hw2 ⊢
    rcases runTestG_data_or testerVariant e1 u t with h | hA
    · exact absurd (h ▸ hw1) (lt_irrefl 0)
    rcases runTestG_data_or testerVariant e2 u t with h | hB
    · exact absurd (h ▸ hw2) (lt_irrefl 0)
    rw [hA, hB, hdom, h1, h2]

/-- C8 witness: the hypotheses are satisfiable — two identical successful
runs have equal data observables. -/
theorem c8_witness :
    (runTestGen envAllOk "u" "t").trace.filter isData =
      (runTestGen envAllOk "u" "t").trace.filter isData :=
  (c8_deterministic envAllOk envAllOk "u" "t" rfl rfl rfl).1 (by decide) (by decide)

/-- C5 counterexample: the claim fails for `test-generatior.ts`.  With a
first-stage response that is not valid JSON, the generator variant raises
no error at all — nothing is caught and the output file is still written —
because it never `JSON.parse`s the response. -/
theorem c5_counterexample :
    jsonValid "Sure! Here are the tags:" = false ∧
    (runTestGen envBadJson "u" "t").trace.countP isWrote = 1 ∧
    Ev.caughtError ∉ (runTestGen envBadJson "u" "t").trace := by
  decide

/-- C5 (amended): in `tester.ts` a malformed (non-JSON) first-stage
response makes `JSON.parse` throw; the error is caught at the top level
and no output file is written.  `test-generatior.ts` never parses the
first-stage response, so a malformed response is not an error there: when
every collaborator succeeds, the run completes and writes the file.  In
both variants, whenever any step fails before the output write (so that
the catch logs an error), no output file is written. -/
theorem c5_malformed_response :
    (∀ (env : Env) (u t : String) (m : LlmResp) (r : String),
      env.llm1 (prompt1 testerVariant env t) = .ok m →
      m.content.head? = some r → jsonValid r = false →
      Ev.caughtError ∈ (runTestTester env u t).trace ∧
      (runTestTester env u t).trace.countP isWrote = 0) ∧
    (∀ (env : Env) (u t : String),
      Ev.caughtError ∈ (runTestGen env u t).trace →
      (runTestGen env u t).trace.countP isWrote = 0) ∧
    (∀ (env : Env) (u t : String),
      Ev.caughtError ∈ (runTestTester env u t).trace →
      (runTestTester env u t).trace.countP isWrote = 0) ∧
    (∀ (env : Env) (u t : String) (m1 m2 : LlmResp) (r c0 : String),
      env.launch = .ok () → env.newPage = .ok () → env.nav = .ok () →
      env.evalOk = .ok () →
      env.llm1 (prompt1 generatorVariant env t) = .ok m1 →
      m1.content.head? = some r →
      env.llm2 (generatorVariant.mkPrompt2 (jsQuote r) t) = .ok m2 →
      m2.content.head? = some c0 →
      env.write = .ok () →
      (runTestGen env u t).trace.countP isWrote = 1 ∧
      Ev.caughtError ∉ (runTestGen env u t).trace) :=
  ⟨fun env u t m r h1 h2 h3 => runTestTester_bad_json env u t m r h1 h2 h3,
    fun env u t => runTestG_atomic generatorVariant env u t,
    fun env u t => runTestG_atomic testerVariant env u t,
    fun env u t m1 m2 r c0 hl hn hg he h1 h2 h3 h4 hw =>
      runTestGen_writes_through env u t m1 m2 r c0 hl hn hg he h1 h2 h3 h4 hw⟩

/-- C5 witness: at a concrete environment whose first response is not
JSON, the tester variant catches the parse error. -/
theorem c5_witness : Ev.caughtError ∈ (runTestTester envBadJson "u" "t").trace :=
  (c5_malformed_response.1 envBadJson "u" "t" ⟨["Sure! Here are the tags:"]⟩
    "Sure! Here are the tags:" rfl rfl (by decide)).1

mutual

/-- Pruning the selected descendants commutes with the style-attribute
strip on a single kept node. -/
theorem stripStyle_removeSel_commN (sel : List String) (n : Node) :
    removeSelN sel (stripStyleN n) = stripStyleN (specRemovedN sel n) := by
  cases n with
  | text s => simp [stripStyleN, removeSelN, specRemovedN]
  | elem t a c =>
    simp [stripStyleN, removeSelN, specRemovedN, stripStyle_removeSel_commL sel c]

/-- Pruning the selected descendants commutes with the style-attribute
strip on a forest. -/
theorem stripStyle_removeSel_commL (sel : List String) (l : List Node) :
    removeSelL sel (stripStyleL l) = stripStyleL (specRemovedL sel l) := by
  cases l with
  | nil => simp [stripStyleL, removeSelL, specRemovedL]
  | cons n ns =>
    cases n with
    | text s =>
      simp [stripStyleL, stripStyleN, removeSelL, specRemovedL,
        stripStyle_removeSel_commL sel ns]
    | elem t a c =>
      by_cases h : t ∈ sel
      · simp [stripStyleL, stripStyleN, removeSelL, specRemovedL, h,
          stripStyle_removeSel_commL sel ns]
      · simp [stripStyleL, stripStyleN, removeSelL, specRemovedL, h,
          stripStyle_removeSel_commL sel ns, stripStyle_removeSel_commL sel c]

end

/-- The capture performed by `page.evaluate` equals the spec-side
description (prune the selected node kinds, then strip the `style`
attributes, then serialize), for any selector list. -/
theorem evalCapture_eq_specCapture (sel : List String) (dom : List Node) :
    evalCapture sel dom = specCapture sel dom := by
  unfold evalCapture specCapture
  rw [stripStyle_removeSel_commL]

/-- C1 counterexample: the claim is false for `tester.ts`, whose selector
omits `svg` and `meta`.  For a body whose only child is an `svg` element,
the tester capture keeps the node, whereas the claimed value (the body
HTML after removing every link, script, style, svg and meta node) is the
empty string. -/
theorem c1_counterexample :
    evalCapture testerVariant.stripSel [Node.elem "svg" [] []] = "<svg></svg>" ∧
    specCapture genSelector [Node.elem "svg" [] []] = "" ∧
    evalCapture testerVariant.stripSel [Node.elem "svg" [] []] ≠
      specCapture genSelector [Node.elem "svg" [] []] := by
  have h1 : evalCapture testerVariant.stripSel [Node.elem "svg" [] []] = "<svg></svg>" := by
    simp [evalCapture, testerVariant, testerSelector, stripStyleL, stripStyleN,
      removeSelL, serializeL, serializeN, serializeAttrs]
    rfl
  have h2 : specCapture genSelector [Node.elem "svg" [] []] = "" := by
    simp [specCapture, genSelector, specRemovedL, stripStyleL, serializeL]
  refine ⟨h1, h2, ?_⟩
  rw [h1, h2]
  decide

/-- C1 (amended): in both variants the captured body HTML is the body's
serialization after the `style` attribute has been removed from every
element and the selected nodes have been removed; the selector of
`test-generatior.ts` covers link, script, style, svg and meta, while the
selector of `tester.ts` covers only link, script and style (svg and meta
nodes inside the body are kept there). -/
theorem c1_sanitized_capture (dom : List Node) :
    evalCapture generatorVariant.stripSel dom = specCapture genSelector dom ∧
    evalCapture testerVariant.stripSel dom = specCapture testerSelector dom :=
  ⟨evalCapture_eq_specCapture genSelector dom,
    evalCapture_eq_specCapture testerSelector dom⟩

theorem ciStrip_length (ps : List Char) :
    ∀ l r, ciStrip ps l = some r → r.length + ps.length = l.length := by
  induction ps with
  | nil =>
    intro l r h
    simp [ciStrip] at h
    simp [h]
  | cons p ps ih =>
    intro l r h
    cases l with
    | nil => simp [ciStrip] at h
    | cons c cs =>
      by_cases hc : (c.toLower == p) = true
      · simp only [ciStrip, hc, if_true] at h
        have := ih cs r h
        simp only [List.length_cons]
        omega
      · simp only [ciStrip, hc, if_false] at h
        exact absurd h (by simp)

theorem gtClose_length : ∀ l r, gtClose l = some r → r.length < l.length := by
  intro l
  induction l with
  | nil => intro r h; simp [gtClose] at h
  | cons c cs ih =>
    intro r h
    by_cases hc : (c == '>') = true
    · simp only [gtClose, hc, if_true, Option.some_inj] at h
      simp only [← h, List.length_cons]
      omega
    · simp only [gtClose, hc, if_false] at h
      have := ih r h
      simp only [List.length_cons]
      omega

theorem splitGt_length : ∀ l a r, splitGt l = some (a, r) → r.length < l.length := by
  intro l
  induction l with
  | nil => intro a r h; simp [splitGt] at h
  | cons c cs ih =>
    intro a r h
    by_cases hc : (c == '>') = true
    · simp only [splitGt, hc, if_true, Option.some_inj] at h
      cases h
      simp only [List.length_cons]
      omega
    · cases hsp : splitGt cs with
      | none => simp [splitGt, hc, hsp] at h
      | some p =>
        obtain ⟨a1, r1⟩ := p
        simp only [splitGt, hc, if_false, hsp, Option.map_some', Option.some_inj] at h
        have hlen := ih a1 r1 hsp
        cases h
        simp only [List.length_cons]
        omega

theorem findCi_length (pat : List Char) :
    ∀ l r, findCi pat l = some r → r.length ≤ l.length := by
  intro l
  induction l with
  | nil =>
    intro r h
    simp only [findCi] at h
    have := ciStrip_length pat [] r h
    simp only [List.length_nil] at this ⊢
    omega
  | cons c cs ih =>
    intro r h
    cases hE : ciStrip pat (c :: cs) with
    | some r1 =>
      simp only [findCi, hE, Option.some_inj] at h
      have := ciStrip_length pat (c :: cs) r1 hE
      simp only [← h, List.length_cons] at this ⊢
      omega
    | none =>
      simp only [findCi, hE] at h
      have := ih r h
      simp only [List.length_cons]
      omega

theorem tryPair_length (op cp : List Char) (hop : 0 < op.length) :
    ∀ l r, tryPair op cp l = some r → r.length < l.length := by
  intro l r h
  cases h1 : ciStrip op l with
  | none => simp [tryPair, h1] at h
  | some r1 =>
    cases h2 : gtClose r1 with
    | none => simp [tryPair, h1, h2] at h
    | some r2 =>
      simp [tryPair, h1, h2] at h
      have e1 := ciStrip_length op l r1 h1
      have e2 := gtClose_length r1 r2 h2
      have e3 := findCi_length cp r2 r h
      omega

theorem tryScript_length : ∀ l r, tryScript l = some r → r.length < l.length :=
  tryPair_length _ _ (by decide)

theorem tryStyleEl_length : ∀ l r, tryStyleEl l = some r → r.length < l.length :=
  tryPair_length _ _ (by decide)

theorem trySvg_length : ∀ l r, trySvg l = some r → r.length < l.length :=
  tryPair_length _ _ (by decide)

theorem tryMeta_length : ∀ l r, tryMeta l = some r → r.length < l.length := by
  intro l r h
  cases h1 : ciStrip "<meta".data l with
  | none => simp [tryMeta, h1] at h
  | some r1 =>
    simp [tryMeta, h1] at h
    have e1 := ciStrip_length _ l r1 h1
    have e2 := gtClose_length r1 r h
    have e3 : 0 < ("<meta".data).length := by decide
    omega

theorem tryLink_length : ∀ l r, tryLink l = some r → r.length < l.length := by
  intro l r h
  cases h1 : ciStrip "<link".data l with
  | none => simp [tryLink, h1] at h
  | some r1 =>
    cases h2 : splitGt r1 with
    | none => simp [tryLink, h1, h2] at h
    | some p =>
      obtain ⟨chunk, rest⟩ := p
      by_cases hr : hasRel chunk = true
      · simp [tryLink, h1, h2, hr] at h
        have e1 := ciStrip_length _ l r1 h1
        have e2 := splitGt_length r1 chunk rest h2
        have e3 : 0 < ("<link".data).length := by decide
        simp only [← h]
        omega
      · simp [tryLink, h1, h2, hr] at h

theorem stripGo_length_le (f : List Char → Option (List Char))
    (hf : ∀ l r, f l = some r → r.length < l.length) :
    ∀ fuel l, (stripGo f fuel l).length ≤ l.length := by
  intro fuel
  induction fuel with
  | zero => intro l; simp [stripGo]
  | succ fuel ih =>
    intro l
    cases l with
    | nil => simp [stripGo]
    | cons c cs =>
      cases hE : f (c :: cs) with
      | some r =>
        simp only [stripGo, hE]
        have h1 := hf _ _ hE
        have h2 := ih r
        simp only [List.length_cons] at *
        omega
      | none =>
        simp only [stripGo, hE, List.length_cons]
        have := ih cs
        omega

theorem stripGo_eq_or_lt (f : List Char → Option (List Char))
    (hf : ∀ l r, f l = some r → r.length < l.length) :
    ∀ fuel l, l.length ≤ fuel →
      stripGo f fuel l = l ∨ (stripGo f fuel l).length < l.length := by
  intro fuel
  induction fuel with
  | zero => intro l hl; left; simp [stripGo]
  | succ fuel ih =>
    intro l hl
    cases l with
    | nil => left; simp [stripGo]
    | cons c cs =>
      cases hE : f (c :: cs) with
      | some r =>
        right
        simp only [stripGo, hE]
        have h1 := hf _ _ hE
        have h2 := stripGo_length_le f hf fuel r
        simp only [List.length_cons] at *
        omega
      | none =>
        simp only [stripGo, hE]
        rcases ih cs (by simp only [List.length_cons] at hl; omega) with h | h
        · left
          rw [h]
        · right
          simp only [List.length_cons]
          omega

theorem stripAll_length_le (f : List Char → Option (List Char))
    (hf : ∀ l r, f l = some r → r.length < l.length) (l : List Char) :
    (stripAll f l).length ≤ l.length :=
  stripGo_length_le f hf l.length l

theorem stripAll_eq_or_lt (f : List Char → Option (List Char))
    (hf : ∀ l r, f l = some r → r.length < l.length) (l : List Char) :
    stripAll f l = l ∨ (stripAll f l).length < l.length :=
  stripGo_eq_or_lt f hf l.length l le_rfl

theorem comp_shrink (f g : List Char → List Char)
    (hfle : ∀ l, (f l).length ≤ l.length)
    (hfd : ∀ l, f l = l ∨ (f l).length < l.length)
    (hgle : ∀ l, (g l).length ≤ l.length)
    (hgd : ∀ l, g l = l ∨ (g l).length < l.length) :
    (∀ l, (g (f l)).length ≤ l.length) ∧
      (∀ l, g (f l) = l ∨ (g (f l)).length < l.length) := by
  constructor
  · intro l
    exact le_trans (hgle (f l)) (hfle l)
  · intro l
    rcases hfd l with h | h
    · rw [h]
      exact hgd l
    · right
      exact lt_of_le_of_lt (hgle (f l)) h

/-- The length-dichotomy for the full five-pass sanitizer core. -/
theorem sanitizeCore_shrink :
    (∀ l : List Char,
      (stripAll tryMeta (stripAll trySvg (stripAll tryLink
        (stripAll tryStyleEl (stripAll tryScript l))))).length ≤ l.length) ∧
    (∀ l : List Char,
      stripAll tryMeta (stripAll trySvg (stripAll tryLink
        (stripAll tryStyleEl (stripAll tryScript l)))) = l ∨
      (stripAll tryMeta (stripAll trySvg (stripAll tryLink
        (stripAll tryStyleEl (stripAll tryScript l))))).length < l.length) := by
  have s1 := comp_shrink (stripAll tryScript) (stripAll tryStyleEl)
    (stripAll_length_le _ tryScript_length) (stripAll_eq_or_lt _ tryScript_length)
    (stripAll_length_le _ tryStyleEl_length) (stripAll_eq_or_lt _ tryStyleEl_length)
  have s2 := comp_shrink (fun l => stripAll tryStyleEl (stripAll tryScript l))
    (stripAll tryLink) s1.1 s1.2
    (stripAll_length_le _ tryLink_length) (stripAll_eq_or_lt _ tryLink_length)
  have s3 := comp_shrink
    (fun l => stripAll tryLink (stripAll tryStyleEl (stripAll tryScript l)))
    (stripAll trySvg) s2.1 s2.2
    (stripAll_length_le _ trySvg_length) (stripAll_eq_or_lt _ trySvg_length)
  have s4 := comp_shrink
    (fun l => stripAll trySvg (stripAll tryLink (stripAll tryStyleEl (stripAll tryScript l))))
    (stripAll tryMeta) s3.1 s3.2
    (stripAll_length_le _ tryMeta_length) (stripAll_eq_or_lt _ tryMeta_length)
  exact s4

/-- Each application of `sanitizeHTML` either leaves the string unchanged
or strictly shortens it. -/
theorem sanitizeHTML_eq_or_lt (s : String) :
    sanitizeHTML s = s ∨ (sanitizeHTML s).length < s.length := by
  rcases sanitizeCore_shrink.2 s.data with h | h
  · left
    show String.mk _ = s
    rw [h]
  · right
    show (String.mk _).length < s.length
    simpa using h

/-- A length-decreasing-or-fixing endomap reaches a fixed point of its
iteration within `length` steps. -/
theorem iterate_reaches_fix (f : String → String)
    (hf : ∀ s, f s = s ∨ (f s).length < s.length) :
    ∀ s, ∃ n, n ≤ s.length ∧ f^[n + 1] s = f^[n] s := by
  have key : ∀ k (s : String), s.length ≤ k →
      ∃ n, n ≤ s.length ∧ f^[n + 1] s = f^[n] s := by
    intro k
    induction k with
    | zero =>
      intro s hs
      rcases hf s with h | h
      · exact ⟨0, Nat.zero_le _, by simpa using h⟩
      · omega
    | succ k ih =>
      intro s hs
      rcases hf s with h | h
      · exact ⟨0, Nat.zero_le _, by simpa using h⟩
      · obtain ⟨n, hn, hfix⟩ := ih (f s) (by omega)
        refine ⟨n + 1, by omega, ?_⟩
        rw [Function.iterate_succ_apply, Function.iterate_succ_apply]
        exact hfix
  intro s
  exact key s.length s le_rfl

/-- C9 counterexample: `sanitizeHTML` is not idempotent and its output can
still match a removal pattern.  Removing the inner `<meta>` from
`<me<meta>ta>` splices the surrounding characters into a fresh `<meta>`
tag, which a second application removes. -/
theorem c9_counterexample :
    sanitizeHTML "<me<meta>ta>" = "<meta>" ∧
    sanitizeHTML (sanitizeHTML "<me<meta>ta>") ≠ sanitizeHTML "<me<meta>ta>" ∧
    matchesAnyPattern (sanitizeHTML "<me<meta>ta>") = true := by
  decide

/-- C9 (amended): `sanitizeHTML` is neither idempotent nor match-free on
its output — removing a tag can splice the surrounding characters into a
new tag (counterexample `<me<meta>ta>`).  What does hold: every
application either fixes its input or strictly shortens it, so the
iteration of `sanitizeHTML` reaches a fixed point after at most
`length`-many steps. -/
theorem c9_sanitize_shrinks (h : String) :
    (sanitizeHTML h = h ∨ (sanitizeHTML h).length < h.length) ∧
    ∃ n, n ≤ h.length ∧ sanitizeHTML^[n + 1] h = sanitizeHTML^[n] h :=
  ⟨sanitizeHTML_eq_or_lt h, iterate_reaches_fix sanitizeHTML sanitizeHTML_eq_or_lt h⟩

theorem ciStrip_suffix (ps : List Char) :
    ∀ l r, ciStrip ps l = some r → r <:+ l := by
  induction ps with
  | nil =>
    intro l r h
    simp [ciStrip] at h
    simp [h]
  | cons p ps ih =>
    intro l r h
    cases l with
    | nil => simp [ciStrip] at h
    | cons c cs =>
      by_cases hc : (c.toLower == p) = true
      · simp only [ciStrip, hc, if_true] at h
        exact (ih cs r h).trans (List.suffix_cons c cs)
      · simp only [ciStrip, hc, if_false] at h
        exact absurd h (by simp)

theorem altTail_gt (rest : List Char) (h : altTail rest = true) : '>' ∈ rest := by
  unfold altTail at h
  split at h
  · simp at h
  · simp only [Bool.and_eq_true, List.any_eq_true, beq_iff_eq] at h
    obtain ⟨-, x, hx, rfl⟩ := h
    exact hx

theorem critHere_gt (l : List Char) (h : critHere l = true) : '>' ∈ l := by
  unfold critHere at h
  split at h
  next r =>
    simp only [Bool.or_eq_true] at h
    rcases h with h | h
    · simp only [List.any_eq_true] at h
      obtain ⟨a, -, ha⟩ := h
      cases hE : ciStrip a r with
      | none => rw [hE] at ha; simp at ha
      | some rest =>
        rw [hE] at ha
        exact List.mem_cons_of_mem _ ((ciStrip_suffix a r rest hE).subset (altTail_gt rest ha))
    · split at h
      next c d rest =>
        simp only [Bool.and_eq_true] at h
        have hg := altTail_gt rest h.2
        exact List.mem_cons_of_mem _
          (List.mem_cons_of_mem _ (List.mem_cons_of_mem _ hg))
      next => simp at h
  next => simp at h

theorem tagAfterLt_sound (slash : String) (r1 : List Char) (m : String × String × String)
    (rest : List Char) (h : tagAfterLt slash r1 = some (m, rest)) :
    m.1 = slash ∧ ∀ ch ∈ m.2.1.data, isWordChar ch = true := by
  cases r1 with
  | nil => simp [tagAfterLt] at h
  | cons c r2 =>
    by_cases hc : isWordChar c = true
    · simp only [tagAfterLt, hc, if_true] at h
      cases hE : splitGt (r2.dropWhile isWordChar) with
      | none => rw [hE] at h; simp at h
      | some p =>
        rw [hE] at h
        simp only [Option.some_inj] at h
        have hm : m = (slash, String.mk (c :: r2.takeWhile isWordChar), String.mk p.1) := by
          cases h
          rfl
        subst hm
        refine ⟨rfl, ?_⟩
        intro ch hch
        simp only [String.data] at hch
        rcases List.mem_cons.mp hch with rfl | hch
        · exact hc
        · exact List.mem_takeWhile_imp hch
    · simp [tagAfterLt, hc] at h

theorem tryTag_sound (l : List Char) (m : String × String × String) (rest : List Char)
    (h : tryTag l = some (m, rest)) :
    (m.1 = "" ∨ m.1 = "/") ∧ ∀ ch ∈ m.2.1.data, isWordChar ch = true := by
  unfold tryTag at h
  split at h
  · have := tagAfterLt_sound "/" _ m rest h
    exact ⟨Or.inr this.1, this.2⟩
  · have := tagAfterLt_sound "" _ m rest h
    exact ⟨Or.inl this.1, this.2⟩
  · exact absurd h (by simp)

theorem scanTags_sound :
    ∀ fuel l m, m ∈ scanTags fuel l →
      (m.1 = "" ∨ m.1 = "/") ∧ ∀ ch ∈ m.2.1.data, isWordChar ch = true := by
  intro fuel
  induction fuel with
  | zero => intro l m h; simp [scanTags] at h
  | succ fuel ih =>
    intro l m h
    cases l with
    | nil => simp [scanTags] at h
    | cons c cs =>
      cases hE : tryTag (c :: cs) with
      | some p =>
        obtain ⟨m1, rest⟩ := p
        rw [scanTags, hE] at h
        rcases List.mem_cons.mp h with rfl | h
        · exact tryTag_sound _ m rest hE
        · exact ih rest m h
      | none =>
        rw [scanTags, hE] at h
        exact ih cs m h

theorem critTest_probe_false (slash name : String)
    (hs : slash = "" ∨ slash = "/")
    (hn : ∀ ch ∈ name.data, isWordChar ch = true) :
    critTest ("<" ++ slash ++ name) = false := by
  by_contra hcontra
  have htrue : critTest ("<" ++ slash ++ name) = true := by
    revert hcontra
    cases critTest ("<" ++ slash ++ name) <;> simp
  unfold critTest at htrue
  simp only [List.any_eq_true] at htrue
  obtain ⟨tl, htl, hcrit⟩ := htrue
  have hgt : '>' ∈ tl := critHere_gt tl hcrit
  have hsub : tl <:+ ("<" ++ slash ++ name).data := (List.mem_tails _ _).mp htl
  have hmem : '>' ∈ ("<" ++ slash ++ name).data := hsub.subset hgt
  have hdata : ("<" ++ slash ++ name).data = '<' :: (slash.data ++ name.data) := by
    rcases hs with rfl | rfl <;> simp [String.data_append]
  rw [hdata] at hmem
  rcases List.mem_cons.mp hmem with h | h
  · exact absurd h.symm (by decide)
  rcases List.mem_append.mp h with h | h
  · rcases hs with rfl | rfl
    · simp at h
    · simp at h
  · have := hn _ h
    exact absurd this (by decide)

/-- C10: the code contradicts its own documentation.  The default
criterion regex requires a closing `>`, but `filterHTML` tests it against
the probe `'<' + closingSlash + tagName`, which never contains one — so no
tag is ever deemed relevant and `filterHTML` returns the empty string on
every input (in particular on `"<button>"`, where the documented behaviour
would return the `<button>` tag itself). -/
theorem c10_filterHTML_empty :
    filterHTML "<button>" = "" ∧ ∀ html : String, filterHTML html = "" := by
  have hall : ∀ html : String, filterHTML html = "" := by
    intro html
    unfold filterHTML
    have : ((scanTags html.data.length html.data).filterMap (fun m =>
        if critTest ("<" ++ m.1 ++ m.2.1) then some ("<" ++ m.1 ++ m.2.1 ++ m.2.2 ++ ">")
        else none)) = [] := by
      rw [List.filterMap_eq_nil_iff]
      intro m hm
      have hsound := scanTags_sound _ _ m hm
      rw [critTest_probe_false m.1 m.2.1 hsound.1 hsound.2]
      simp
    rw [this]
    rfl
  exact ⟨hall "<button>", hall⟩
